import Mathlib

/-!
Shallow embedding of `src/groq.ts`, a Deno HTTP forwarding proxy for the
Groq API.  The file models the three functions of the source —
`handleRequest`, `handleOptions` and `mainHandler` — over explicit request,
response and header-collection types, and proves the specified properties
about them.  The network is supplied as a parameter (`FetchOutcome`): the
handler is a pure function of the inbound request and of what the single
`fetch` call would produce.
-/

/-- ASCII lower-casing of a string, as `key.toLowerCase()` behaves on header
names (JS header names are ASCII).  Defined structurally over the character
list so that it evaluates by kernel reduction; it agrees with
`String.toLower`. -/
def jsToLower (s : String) : String :=
  ⟨s.data.map Char.toLower⟩

/-- Configuration record mirroring the `CONFIG` constant of `groq.ts`. -/
structure Config where
  port : Nat
  logRequests : Bool
  groqApiEndpoint : String
deriving Repr, DecidableEq

/-- The `CONFIG` constant of `groq.ts`: port 8080, request logging enabled,
upstream base URL `https://api.groq.com`. -/
def CONFIG : Config :=
  { port := 8080, logRequests := true, groqApiEndpoint := "https://api.groq.com" }

/-- A header collection as the JS `Headers` class presents it: an association
list of name/value pairs whose names are stored lower-cased, in insertion
order, with values of case-insensitively equal names combined. -/
abbrev HeaderMap := List (String × String)

/-- The `set` operation of the JS `Headers` class: the name is lower-cased; an
existing entry with that name is overwritten in place, otherwise the pair is
appended at the end. -/
def hSet (hs : HeaderMap) (k v : String) : HeaderMap :=
  if hs.any (fun kv => kv.1 == jsToLower k) then
    hs.map (fun kv => if kv.1 == jsToLower k then (kv.1, v) else kv)
  else hs ++ [(jsToLower k, v)]

/-- The `get` operation of the JS `Headers` class: case-insensitive lookup of
the (combined) value stored under a name. -/
def hGet (hs : HeaderMap) (k : String) : Option String :=
  (hs.find? (fun kv => kv.1 == jsToLower k)).map (fun kv => kv.2)

/-- The `append` operation used when a `Headers` collection is built from raw
wire headers: the name is lower-cased, and a value arriving under an already
present name is combined with the stored one using a comma and a space, per
the Fetch specification. -/
def hAppend (hs : HeaderMap) (k v : String) : HeaderMap :=
  if hs.any (fun kv => kv.1 == jsToLower k) then
    hs.map (fun kv => if kv.1 == jsToLower k then (kv.1, kv.2 ++ ", " ++ v) else kv)
  else hs ++ [(jsToLower k, v)]

/-- Building a JS `Headers` collection from the raw headers of the wire
request, in order: names are lower-cased and repeated names combine. -/
def normalizeHeaders (raw : List (String × String)) : HeaderMap :=
  raw.foldl (fun acc kv => hAppend acc kv.1 kv.2) []

/-- An inbound HTTP request as the handler observes it: the method token, the
parsed URL pathname and query (`url.search` is `"?" ++ query` when the query
is non-empty and `""` when it is empty), the raw wire headers, and an
optional body. -/
structure Request where
  method : String
  pathname : String
  query : String
  rawHeaders : List (String × String)
  body : Option String
deriving Repr, DecidableEq

/-- The `search` component of the parsed URL, exactly as the `url.search`
accessor renders it. -/
def searchOf (query : String) : String :=
  if query = "" then "" else "?" ++ query

/-- The `request.headers` collection of the inbound request. -/
def Request.headersOf (r : Request) : HeaderMap :=
  normalizeHeaders r.rawHeaders

/-- An upstream response as the `fetch` promise resolves it. -/
structure UpstreamResponse where
  status : Nat
  statusText : String
  headers : HeaderMap
  body : Option String
deriving Repr, DecidableEq

/-- A JavaScript value, to the extent the catch block of `groq.ts` inspects
one: the thrown value is `null`, `undefined`, a string, or an object whose
`message` property is a string or absent (`Error` instances are objects
carrying a `message`). -/
inductive JSValue where
  | jsNull
  | jsUndefined
  | jsString (s : String)
  | jsObject (message : Option String)
deriving Repr, DecidableEq

/-- Outcome of the outbound `fetch` call: a resolved upstream response, or a
rejection with a thrown value. -/
inductive FetchOutcome where
  | success (resp : UpstreamResponse)
  | failure (err : JSValue)
deriving Repr, DecidableEq

/-- One console emission: `console.log` with a line, or `console.error` with
a line and the raised value. -/
inductive LogEvent where
  | info (line : String)
  | errorLine (line : String) (value : JSValue)
deriving Repr, DecidableEq

/-- An HTTP response as the handler returns it (`statusText` defaults to the
empty string when the `Response` constructor is not given one). -/
structure Response where
  status : Nat
  statusText : String
  headers : HeaderMap
  body : Option String
deriving Repr, DecidableEq

/-- How one run of the handler finishes: with a response, or with a value
thrown out of the handler (a rejected promise reaching the caller). -/
inductive Outcome where
  | ok (resp : Response)
  | thrown
deriving Repr, DecidableEq

/-- An outbound `fetch` call as issued: target URL, method, headers, body. -/
structure FetchCall where
  url : String
  method : String
  headers : HeaderMap
  body : Option String
deriving Repr, DecidableEq

/-- Everything observable from one run of the handler: the outbound calls it
issued, in order; the console output it produced, in order; and how it
finished. -/
structure Trace where
  fetches : List FetchCall
  logs : List LogEvent
  outcome : Outcome
deriving Repr, DecidableEq

/-- Reading the `message` property of the caught value (`error.message`): on
`null` or `undefined` the property read itself throws a `TypeError`; a string
has no `message` property (the read yields `undefined`); an object yields its
`message` property. -/
def getMessage : JSValue → Except Unit (Option String)
  | .jsNull => .error ()
  | .jsUndefined => .error ()
  | .jsString _ => .ok none
  | .jsObject m => .ok m

/-- The JS expression `error.message || "Unknown error"`: `undefined` and the
empty string are falsy, any other string passes through. -/
def messageOrUnknown : Option String → String
  | none => "Unknown error"
  | some s => if s = "" then "Unknown error" else s

/-- The fixed static HTML body served for the root path, byte for byte the
template literal of `groq.ts` (leading newline and indentation included). -/
def landingHTML : String :=
  "\n      <!DOCTYPE html>\n      <html lang=\"en\">\n      <head>\n        <meta charset=\"UTF-8\">\n        <title>Groq API Proxy</title>\n      </head>\n      <body>\n        <h1>Groq API Proxy is Running!</h1>\n        <p>This proxy is configured to forward requests to the Groq API.</p>\n      </body>\n      </html>\n    "

/-- The landing-page response of `groq.ts`: status 200, `Content-Type`
`text/html; charset=utf-8`, the fixed HTML body. -/
def landingResponse : Response :=
  { status := 200, statusText := "",
    headers := [("content-type", "text/html; charset=utf-8")],
    body := some landingHTML }

/-- Lines 47–55 of `groq.ts`: a fresh `Headers` collection receiving, via
`set`, every entry of the inbound collection whose lower-cased name is not
`host`. -/
def copyHeaders (inbound : HeaderMap) : HeaderMap :=
  inbound.foldl
    (fun acc kv => if jsToLower kv.1 ≠ "host" then hSet acc kv.1 kv.2 else acc) []

/-- The `handleRequest` function of `groq.ts`.  `now` is the ISO-8601
timestamp that `new Date().toISOString()` produces during the call; `net` is
what the single outbound `fetch` would do. -/
def handleRequest (cfg : Config) (now : String) (req : Request)
    (net : FetchOutcome) : Trace :=
  if req.pathname = "/" ∨ req.pathname = "/index.html" then
    { fetches := [], logs := [], outcome := .ok landingResponse }
  else
    let targetUrl := cfg.groqApiEndpoint ++ req.pathname ++ searchOf req.query
    let requestLogs :=
      if cfg.logRequests then
        [LogEvent.info
          ("[" ++ now ++ "] " ++ req.method ++ " " ++ req.pathname ++ " -> " ++ targetUrl)]
      else []
    let outHeaders := copyHeaders req.headersOf
    let outBody :=
      if req.method = "GET" ∨ req.method = "HEAD" then none else req.body
    let call : FetchCall :=
      { url := targetUrl, method := req.method, headers := outHeaders, body := outBody }
    match net with
    | .success resp =>
      let responseHeaders :=
        hSet (hSet (hSet resp.headers
          "Access-Control-Allow-Origin" "*")
          "Access-Control-Allow-Methods" "GET, POST, PUT, DELETE, OPTIONS")
          "Access-Control-Allow-Headers" "*"
      { fetches := [call], logs := requestLogs,
        outcome := .ok
          { status := resp.status, statusText := resp.statusText,
            headers := responseHeaders, body := resp.body } }
    | .failure err =>
      let errLogs :=
        requestLogs ++
          [LogEvent.errorLine ("[ERROR] Failed to fetch " ++ targetUrl ++ ":") err]
      match getMessage err with
      | .error _ => { fetches := [call], logs := errLogs, outcome := .thrown }
      | .ok m =>
        { fetches := [call], logs := errLogs,
          outcome := .ok
            { status := 500, statusText := "",
              headers := [("content-type", "text/plain"),
                          ("access-control-allow-origin", "*")],
              body := some ("Proxy Error: " ++ messageOrUnknown m) } }

/-- The `handleOptions` function of `groq.ts`: the CORS preflight response,
status 204, empty body, the four CORS headers. -/
def handleOptions (_req : Request) : Response :=
  { status := 204, statusText := "",
    headers := [("access-control-allow-origin", "*"),
                ("access-control-allow-methods", "GET, POST, PUT, DELETE, OPTIONS"),
                ("access-control-allow-headers", "*"),
                ("access-control-max-age", "86400")],
    body := none }

/-- The `mainHandler` function of `groq.ts`: `OPTIONS` requests are answered
locally without touching the network, everything else goes to
`handleRequest`. -/
def mainHandler (cfg : Config) (now : String) (req : Request)
    (net : FetchOutcome) : Trace :=
  if req.method = "OPTIONS" then
    { fetches := [], logs := [], outcome := .ok (handleOptions req) }
  else handleRequest cfg now req net

/-- Predicate: every stored header name is already lower-cased, as the JS
`Headers` class maintains. -/
def keysLower (hs : HeaderMap) : Prop :=
  ∀ kv ∈ hs, jsToLower kv.1 = kv.1

/-- Predicate: the stored header names are pairwise distinct, as the JS
`Headers` class maintains (repeated names combine into one entry). -/
def keysNodup (hs : HeaderMap) : Prop :=
  (hs.map Prod.fst).Nodup

/-- A concrete forwarded request used to instantiate general theorems: a POST
to a non-special path carrying a Host header, an authorization header and a
body. -/
def sampleForwardRequest : Request :=
  { method := "POST", pathname := "/openai/v1/chat/completions", query := "",
    rawHeaders := [("Host", "proxy.example"), ("Authorization", "Bearer k1"),
                   ("content-type", "application/json")],
    body := some "payload" }

/-- A concrete GET request with a query string and a (spurious) inbound body,
used to instantiate general theorems. -/
def sampleGetRequest : Request :=
  { method := "GET", pathname := "/v1/models", query := "page=2",
    rawHeaders := [("Host", "proxy.example"), ("Accept", "application/json")],
    body := some "ignored" }

/-- A concrete upstream response with a non-2xx status and a conflicting CORS
header, used to instantiate general theorems. -/
def sampleUpstream : UpstreamResponse :=
  { status := 429, statusText := "Too Many Requests",
    headers := [("content-type", "application/json"),
                ("access-control-allow-origin", "https://old.example")],
    body := some "rate limited" }

/-- Packing a valid codepoint and reading it back is the identity. -/
theorem char_toNat_ofNat_valid (n : Nat) (h : n.isValidChar) :
    (Char.ofNat n).toNat = n := by
  rw [Char.ofNat, dif_pos h]
  rfl

/-- Lower-casing a character twice is the same as lower-casing it once. -/
theorem char_toLower_toLower (c : Char) : c.toLower.toLower = c.toLower := by
  simp only [Char.toLower]
  by_cases h : c.toNat ≥ 65 ∧ c.toNat ≤ 90
  · rw [if_pos h]
    rw [char_toNat_ofNat_valid (c.toNat + 32) (Or.inl (by omega))]
    rw [if_neg (by omega)]
  · rw [if_neg h, if_neg h]

/-- The modelled JS lower-casing agrees with `String.toLower`. -/
theorem jsToLower_eq_toLower (s : String) : jsToLower s = s.toLower := by
  rw [String.toLower, String.map_eq, jsToLower]

/-- Lower-casing a string is idempotent. -/
theorem jsToLower_idem (s : String) : jsToLower (jsToLower s) = jsToLower s := by
  simp only [jsToLower, List.map_map]
  congr 1
  apply List.map_congr_left
  intro c _
  exact char_toLower_toLower c

/-- After `hSet hs k v`, looking up `k` yields `v`. -/
theorem hGet_hSet_self (hs : HeaderMap) (k v : String) :
    hGet (hSet hs k v) k = some v := by
  unfold hGet hSet
  by_cases h : hs.any (fun kv => kv.1 == jsToLower k)
  · rw [if_pos h]
    rw [List.find?_map]
    have hpg : ((fun kv : String × String => kv.1 == jsToLower k) ∘
        (fun kv : String × String => if kv.1 == jsToLower k then (kv.1, v) else kv)) =
        (fun kv : String × String => kv.1 == jsToLower k) := by
      funext kv
      by_cases hkv : kv.1 = jsToLower k <;> simp [hkv]
    rw [hpg]
    have hsome : (hs.find? (fun kv => kv.1 == jsToLower k)).isSome := by
      rw [List.find?_isSome]
      rcases List.any_eq_true.mp h with ⟨kv0, hmem, hp⟩
      exact ⟨kv0, hmem, hp⟩
    rcases Option.isSome_iff_exists.mp hsome with ⟨kv1, hfind⟩
    have hk1 : kv1.1 = jsToLower k := by simpa using List.find?_some hfind
    rw [hfind]
    simp [hk1]
  · rw [if_neg h]
    have hnone : hs.find? (fun kv => kv.1 == jsToLower k) = none := by
      rw [List.find?_eq_none]
      intro kv hmem
      exact fun hp => h (List.any_eq_true.mpr ⟨kv, hmem, hp⟩)
    rw [List.find?_append, hnone]
    simp

/-- After `hSet hs k v`, looking up any case-insensitively different name is
unchanged. -/
theorem hGet_hSet_other (hs : HeaderMap) (k v k' : String)
    (hne : jsToLower k' ≠ jsToLower k) :
    hGet (hSet hs k v) k' = hGet hs k' := by
  unfold hGet hSet
  by_cases h : hs.any (fun kv => kv.1 == jsToLower k)
  · rw [if_pos h]
    rw [List.find?_map]
    have hpg : ((fun kv : String × String => kv.1 == jsToLower k') ∘
        (fun kv : String × String => if kv.1 == jsToLower k then (kv.1, v) else kv)) =
        (fun kv : String × String => kv.1 == jsToLower k') := by
      funext kv
      by_cases hkv : kv.1 = jsToLower k <;> simp [hkv, Ne.symm hne]
    rw [hpg]
    cases hfind : hs.find? (fun kv => kv.1 == jsToLower k') with
    | none => simp
    | some kv1 =>
      have hk1 : kv1.1 = jsToLower k' := by simpa using List.find?_some hfind
      simp [hk1, hne]
  · rw [if_neg h]
    rw [List.find?_append]
    have hfalse : (((jsToLower k, v)).1 == jsToLower k') = false := by
      simp only [beq_eq_false_iff_ne]
      exact Ne.symm hne
    simp [List.find?, hfalse]

/-- Names stored by `hAppend`: unchanged when the name was present, the
lower-cased name appended otherwise. -/
theorem fst_hAppend (hs : HeaderMap) (k v : String) :
    (hAppend hs k v).map Prod.fst =
      if hs.any (fun kv => kv.1 == jsToLower k) then hs.map Prod.fst
      else hs.map Prod.fst ++ [jsToLower k] := by
  unfold hAppend
  by_cases h : hs.any (fun kv => kv.1 == jsToLower k)
  · rw [if_pos h, if_pos h, List.map_map]
    congr 1
    funext kv
    by_cases hkv : kv.1 = jsToLower k <;> simp [hkv]
  · rw [if_neg h, if_neg h]
    simp

/-- The `hAppend` operation keeps every stored name lower-cased. -/
theorem keysLower_hAppend (hs : HeaderMap) (k v : String) (hl : keysLower hs) :
    keysLower (hAppend hs k v) := by
  unfold hAppend
  by_cases h : hs.any (fun kv => kv.1 == jsToLower k)
  · rw [if_pos h]
    intro kv hmem
    rcases List.mem_map.mp hmem with ⟨kv0, hkv0, hg⟩
    by_cases hkv : kv0.1 = jsToLower k
    · simp only [hkv, beq_self_eq_true, if_pos] at hg
      rw [← hg]
      simpa using jsToLower_idem k
    · simp only [beq_iff_eq, hkv, if_neg, if_false] at hg
      rw [← hg]
      exact hl kv0 hkv0
  · rw [if_neg h]
    intro kv hmem
    rcases List.mem_append.mp hmem with hold | hnew
    · exact hl kv hold
    · rcases List.mem_singleton.mp hnew with rfl
      exact jsToLower_idem k

/-- The `hAppend` operation keeps the stored names pairwise distinct. -/
theorem keysNodup_hAppend (hs : HeaderMap) (k v : String) (hn : keysNodup hs) :
    keysNodup (hAppend hs k v) := by
  unfold keysNodup
  rw [fst_hAppend]
  by_cases h : hs.any (fun kv => kv.1 == jsToLower k)
  · rw [if_pos h]
    exact hn
  · rw [if_neg h]
    rw [List.nodup_append]
    refine ⟨hn, List.nodup_singleton _, ?_⟩
    intro a ha hb
    rcases List.mem_singleton.mp hb with rfl
    rcases List.mem_map.mp ha with ⟨kv0, hkv0, hfst⟩
    have : ¬(kv0.1 == jsToLower k) = true := by
      intro hp
      exact h (List.any_eq_true.mpr ⟨kv0, hkv0, hp⟩)
    exact this (by simp [hfst])

/-- A `Headers` collection built from raw wire headers has lower-cased,
pairwise distinct names. -/
theorem normalizeHeaders_inv (raw : List (String × String)) :
    keysLower (normalizeHeaders raw) ∧ keysNodup (normalizeHeaders raw) := by
  unfold normalizeHeaders
  suffices hgen : ∀ (l : List (String × String)) (acc : HeaderMap),
      keysLower acc → keysNodup acc →
      keysLower (l.foldl (fun acc kv => hAppend acc kv.1 kv.2) acc) ∧
      keysNodup (l.foldl (fun acc kv => hAppend acc kv.1 kv.2) acc) by
    exact hgen raw [] (by intro kv h; cases h) (by simp [keysNodup])
  intro l
  induction l with
  | nil => intro acc h1 h2; exact ⟨h1, h2⟩
  | cons a t ih =>
    intro acc h1 h2
    exact ih (hAppend acc a.1 a.2) (keysLower_hAppend _ _ _ h1) (keysNodup_hAppend _ _ _ h2)

/-- Setting a lower-cased name that is not yet present appends the pair. -/
theorem hSet_append_of_not_mem (acc : HeaderMap) (k v : String)
    (hk : jsToLower k = k) (hnot : k ∉ acc.map Prod.fst) :
    hSet acc k v = acc ++ [(k, v)] := by
  unfold hSet
  rw [hk]
  rw [if_neg]
  intro hany
  rcases List.any_eq_true.mp hany with ⟨kv0, hmem, hp⟩
  have : kv0.1 = k := by simpa using hp
  exact hnot (List.mem_map.mpr ⟨kv0, hmem, this⟩)

/-- Folding the host-dropping `set` loop of `handleRequest` over a normalized
collection appends exactly the non-host entries. -/
theorem copyHeaders_go (rest : HeaderMap) :
    ∀ acc : HeaderMap, keysLower rest → (rest.map Prod.fst).Nodup →
    (∀ kv ∈ rest, kv.1 ∉ acc.map Prod.fst) →
    rest.foldl (fun acc kv => if jsToLower kv.1 ≠ "host" then hSet acc kv.1 kv.2 else acc) acc
      = acc ++ rest.filter (fun kv => !(kv.1 == "host")) := by
  induction rest with
  | nil => intro acc _ _ _; simp
  | cons a t ih =>
    intro acc hlow hnd hdisj
    have ha1 : jsToLower a.1 = a.1 := hlow a (List.mem_cons_self a t)
    have hlowt : keysLower t := fun kv h => hlow kv (List.mem_cons_of_mem a h)
    have hnd2 : a.1 ∉ t.map Prod.fst ∧ (t.map Prod.fst).Nodup := by
      have hnd9 : (a.1 :: t.map Prod.fst).Nodup := by simpa using hnd
      exact List.nodup_cons.mp hnd9
    have hndt : (t.map Prod.fst).Nodup := hnd2.2
    have hnotin : a.1 ∉ t.map Prod.fst := hnd2.1
    simp only [List.foldl_cons, List.filter_cons]
    by_cases hhost : a.1 = "host"
    · rw [if_neg (by rw [ha1]; simpa using hhost)]
      have hfilter : (!(a.1 == "host")) = false := by simp [hhost]
      rw [hfilter]
      simp only [Bool.false_eq_true, if_false]
      exact ih acc hlowt hndt (fun kv h => hdisj kv (List.mem_cons_of_mem a h))
    · rw [if_pos (by rw [ha1]; simpa using hhost)]
      have hfilter : (!(a.1 == "host")) = true := by simp [hhost]
      rw [hfilter]
      simp only [if_true]
      rw [hSet_append_of_not_mem acc a.1 a.2 ha1 (hdisj a (List.mem_cons_self a t))]
      rw [ih (acc ++ [(a.1, a.2)]) hlowt hndt ?hdisj2]
      · simp
      case hdisj2 =>
        intro kv hmem
        simp only [List.map_append, List.mem_append]
        rintro (hin | hin)
        · exact hdisj kv (List.mem_cons_of_mem a hmem) hin
        · simp only [List.map_cons, List.map_nil, List.mem_singleton] at hin
          exact hnotin (hin ▸ List.mem_map.mpr ⟨kv, hmem, rfl⟩)

/-- On a normalized collection, the header-copying loop of `handleRequest` is
exactly the filter dropping the host entry. -/
theorem copyHeaders_eq_filter (hs : HeaderMap) (hl : keysLower hs) (hn : keysNodup hs) :
    copyHeaders hs = hs.filter (fun kv => !(kv.1 == "host")) := by
  unfold copyHeaders
  have := copyHeaders_go hs [] hl hn (by intro kv _ h; simp at h)
  simpa using this

/-- Filtering does not change the first match of a predicate that implies the
filter. -/
theorem find?_filter_of_imp {α : Type} (l : List α) (p q : α → Bool)
    (h : ∀ a, q a = true → p a = true) :
    (l.filter p).find? q = l.find? q := by
  induction l with
  | nil => rfl
  | cons a t ih =>
    by_cases hq : q a
    · simp [List.filter_cons, h a hq, List.find?_cons_of_pos, hq]
    · by_cases hp : p a
      · simp [List.filter_cons, hp, List.find?_cons_of_neg, hq, ih]
      · simp [List.filter_cons, hp, List.find?_cons_of_neg, hq, ih]

/-- Lower-casing of the first CORS response header name. -/
theorem jsl1 : jsToLower "Access-Control-Allow-Origin" = "access-control-allow-origin" := by
  decide

/-- Lower-casing of the second CORS response header name. -/
theorem jsl2 : jsToLower "Access-Control-Allow-Methods" = "access-control-allow-methods" := by
  decide

/-- Lower-casing of the third CORS response header name. -/
theorem jsl3 : jsToLower "Access-Control-Allow-Headers" = "access-control-allow-headers" := by
  decide

/-- Claim C1: for every inbound request whose method is not OPTIONS and whose
path is neither the root nor the index page, the handler issues exactly one
outbound call, targeted at the upstream base URL concatenated with the
inbound path, followed by a question mark and the query string when the query
is non-empty and by nothing when it is empty. -/
theorem groq_c1 (cfg : Config) (now : String) (r : Request) (net : FetchOutcome)
    (hm : r.method ≠ "OPTIONS") (h1 : r.pathname ≠ "/") (h2 : r.pathname ≠ "/index.html") :
    ∃ c : FetchCall, (mainHandler cfg now r net).fetches = [c] ∧
      c.url = cfg.groqApiEndpoint ++ r.pathname ++
        (if r.query = "" then "" else "?" ++ r.query) := by
  unfold mainHandler handleRequest
  rw [if_neg hm, if_neg (by rintro (h | h); exact h1 h; exact h2 h)]
  cases net with
  | success resp => exact ⟨_, rfl, rfl⟩
  | failure err => cases err <;> exact ⟨_, rfl, rfl⟩

/-- Witness for claim C1 at a concrete POST request. -/
theorem groq_c1_witness :
    ∃ c : FetchCall,
      (mainHandler CONFIG "2025-01-01T00:00:00.000Z" sampleForwardRequest
        (.success sampleUpstream)).fetches = [c] ∧
      c.url = CONFIG.groqApiEndpoint ++ sampleForwardRequest.pathname ++
        (if sampleForwardRequest.query = "" then "" else "?" ++ sampleForwardRequest.query) :=
  groq_c1 CONFIG "2025-01-01T00:00:00.000Z" sampleForwardRequest (.success sampleUpstream)
    (by decide) (by decide) (by decide)

/-- Claim C2: the outbound header collection of a forwarded request contains
no name case-insensitively equal to Host, and under every other name it holds
exactly what the inbound collection holds, multiple inbound headers under
case-insensitively equal names included (they combine in the inbound
collection and the combined value is forwarded unchanged). -/
theorem groq_c2 (r : Request) :
    (∀ kv ∈ copyHeaders r.headersOf, jsToLower kv.1 ≠ "host") ∧
    (∀ k : String, jsToLower k ≠ "host" →
      hGet (copyHeaders r.headersOf) k = hGet r.headersOf k) := by
  have hinv := normalizeHeaders_inv r.rawHeaders
  have hfilter := copyHeaders_eq_filter r.headersOf
    (by exact hinv.1) (by exact hinv.2)
  constructor
  · intro kv hmem
    rw [hfilter] at hmem
    have hmf := List.mem_filter.mp hmem
    have hne : kv.1 ≠ "host" := by simpa using hmf.2
    have hl : jsToLower kv.1 = kv.1 := hinv.1 kv hmf.1
    rw [hl]
    exact hne
  · intro k hk
    rw [hfilter]
    unfold hGet
    rw [find?_filter_of_imp]
    intro kv hq
    have : kv.1 = jsToLower k := by simpa using hq
    simp [this, hk]

/-- Witness for claim C2: the authorization header of the concrete request
survives the copy unchanged. -/
theorem groq_c2_witness :
    hGet (copyHeaders sampleForwardRequest.headersOf) "Authorization" =
      hGet sampleForwardRequest.headersOf "Authorization" :=
  (groq_c2 sampleForwardRequest).2 "Authorization" (by decide)

/-- Claim C3: when the outbound call succeeds, the response returned to the
caller carries the upstream status, status text and body verbatim, the three
CORS headers hold their fixed values (overwriting whatever the upstream set),
and every other header name reads exactly as in the upstream collection.
This holds for every upstream status, non-2xx included. -/
theorem groq_c3 (cfg : Config) (now : String) (r : Request) (up : UpstreamResponse)
    (hm : r.method ≠ "OPTIONS") (h1 : r.pathname ≠ "/") (h2 : r.pathname ≠ "/index.html") :
    ∃ resp : Response,
      (mainHandler cfg now r (.success up)).outcome = .ok resp ∧
      resp.status = up.status ∧ resp.statusText = up.statusText ∧ resp.body = up.body ∧
      hGet resp.headers "Access-Control-Allow-Origin" = some "*" ∧
      hGet resp.headers "Access-Control-Allow-Methods" = some "GET, POST, PUT, DELETE, OPTIONS" ∧
      hGet resp.headers "Access-Control-Allow-Headers" = some "*" ∧
      ∀ k : String, jsToLower k ≠ "access-control-allow-origin" →
        jsToLower k ≠ "access-control-allow-methods" →
        jsToLower k ≠ "access-control-allow-headers" →
        hGet resp.headers k = hGet up.headers k := by
  unfold mainHandler handleRequest
  rw [if_neg hm, if_neg (by rintro (h | h); exact h1 h; exact h2 h)]
  refine ⟨_, rfl, rfl, rfl, rfl, ?_, ?_, ?_, ?_⟩
  · rw [hGet_hSet_other _ _ _ _ (by rw [jsl1, jsl3]; decide)]
    rw [hGet_hSet_other _ _ _ _ (by rw [jsl1, jsl2]; decide)]
    exact hGet_hSet_self _ _ _
  · rw [hGet_hSet_other _ _ _ _ (by rw [jsl2, jsl3]; decide)]
    exact hGet_hSet_self _ _ _
  · exact hGet_hSet_self _ _ _
  · intro k hk1 hk2 hk3
    rw [hGet_hSet_other _ _ _ _ (by rw [jsl3]; exact hk3)]
    rw [hGet_hSet_other _ _ _ _ (by rw [jsl2]; exact hk2)]
    rw [hGet_hSet_other _ _ _ _ (by rw [jsl1]; exact hk1)]

/-- Witness for claim C3 at a concrete 429 upstream response carrying a
conflicting CORS header. -/
theorem groq_c3_witness :
    ∃ resp : Response,
      (mainHandler CONFIG "2025-01-01T00:00:00.000Z" sampleForwardRequest
        (.success sampleUpstream)).outcome = .ok resp ∧
      resp.status = sampleUpstream.status ∧
      resp.statusText = sampleUpstream.statusText ∧
      resp.body = sampleUpstream.body ∧
      hGet resp.headers "Access-Control-Allow-Origin" = some "*" ∧
      hGet resp.headers "Access-Control-Allow-Methods" = some "GET, POST, PUT, DELETE, OPTIONS" ∧
      hGet resp.headers "Access-Control-Allow-Headers" = some "*" ∧
      ∀ k : String, jsToLower k ≠ "access-control-allow-origin" →
        jsToLower k ≠ "access-control-allow-methods" →
        jsToLower k ≠ "access-control-allow-headers" →
        hGet resp.headers k = hGet sampleUpstream.headers k :=
  groq_c3 CONFIG "2025-01-01T00:00:00.000Z" sampleForwardRequest sampleUpstream
    (by decide) (by decide) (by decide)

/-- Claim C4: when the outbound call fails with a transport error (an Error
object), the handler returns status 500 with Content-Type text/plain and the
permissive origin header, the body is the proxy-error prefix followed by the
message of the failure, or by the fixed unknown-error text when the failure
carries no (non-empty) message, and the call was issued exactly once (no
retry). -/
theorem groq_c4 (cfg : Config) (now : String) (r : Request) (m : Option String)
    (hm : r.method ≠ "OPTIONS") (h1 : r.pathname ≠ "/") (h2 : r.pathname ≠ "/index.html") :
    ∃ resp : Response,
      (mainHandler cfg now r (.failure (.jsObject m))).outcome = .ok resp ∧
      (mainHandler cfg now r (.failure (.jsObject m))).fetches.length = 1 ∧
      resp.status = 500 ∧
      hGet resp.headers "Content-Type" = some "text/plain" ∧
      hGet resp.headers "Access-Control-Allow-Origin" = some "*" ∧
      (∀ s : String, m = some s → s ≠ "" → resp.body = some ("Proxy Error: " ++ s)) ∧
      ((m = none ∨ m = some "") → resp.body = some ("Proxy Error: Unknown error")) := by
  unfold mainHandler handleRequest
  rw [if_neg hm, if_neg (by rintro (h | h); exact h1 h; exact h2 h)]
  refine ⟨_, rfl, rfl, rfl, ?_, ?_, ?_, ?_⟩
  · show hGet [("content-type", "text/plain"), ("access-control-allow-origin", "*")]
      "Content-Type" = some "text/plain"
    decide
  · show hGet [("content-type", "text/plain"), ("access-control-allow-origin", "*")]
      "Access-Control-Allow-Origin" = some "*"
    decide
  · intro s hs hne
    subst hs
    simp [messageOrUnknown, hne]
  · rintro (rfl | rfl) <;> simp [messageOrUnknown]

/-- Witness for claim C4 at a concrete connection-refused failure. -/
theorem groq_c4_witness :
    ∃ resp : Response,
      (mainHandler CONFIG "2025-01-01T00:00:00.000Z" sampleForwardRequest
        (.failure (.jsObject (some "connect ECONNREFUSED")))).outcome = .ok resp ∧
      (mainHandler CONFIG "2025-01-01T00:00:00.000Z" sampleForwardRequest
        (.failure (.jsObject (some "connect ECONNREFUSED")))).fetches.length = 1 ∧
      resp.status = 500 ∧
      hGet resp.headers "Content-Type" = some "text/plain" ∧
      hGet resp.headers "Access-Control-Allow-Origin" = some "*" ∧
      (∀ s : String, some "connect ECONNREFUSED" = some s → s ≠ "" →
        resp.body = some ("Proxy Error: " ++ s)) ∧
      ((some "connect ECONNREFUSED" = none ∨ some "connect ECONNREFUSED" = some "") →
        resp.body = some ("Proxy Error: Unknown error")) :=
  groq_c4 CONFIG "2025-01-01T00:00:00.000Z" sampleForwardRequest (some "connect ECONNREFUSED")
    (by decide) (by decide) (by decide)

/-- Counterexample to claim C5 as stated: when the outbound call rejects with
the thrown value null, the catch block itself raises a TypeError while
reading the message property, and the handler throws to its caller instead
of producing a response. -/
theorem groq_c5_counterexample :
    (mainHandler CONFIG "2025-01-01T00:00:00.000Z" sampleForwardRequest
      (.failure .jsNull)).outcome = Outcome.thrown := by
  decide

/-- Claim C5 as amended: for every inbound request and every outcome of the
outbound call whose thrown value is not null and not undefined, the handler
produces exactly one response and never throws; a thrown null or undefined
makes the catch block itself throw a TypeError. -/
theorem groq_c5_amended (cfg : Config) (now : String) (r : Request) (net : FetchOutcome)
    (h : ∀ e : JSValue, net = .failure e → e ≠ .jsNull ∧ e ≠ .jsUndefined) :
    ∃ resp : Response, (mainHandler cfg now r net).outcome = .ok resp := by
  unfold mainHandler handleRequest
  by_cases hm : r.method = "OPTIONS"
  · rw [if_pos hm]
    exact ⟨_, rfl⟩
  · rw [if_neg hm]
    by_cases hp : r.pathname = "/" ∨ r.pathname = "/index.html"
    · rw [if_pos hp]
      exact ⟨_, rfl⟩
    · rw [if_neg hp]
      cases net with
      | success resp => exact ⟨_, rfl⟩
      | failure err =>
        cases err with
        | jsNull => exact absurd rfl (h .jsNull rfl).1
        | jsUndefined => exact absurd rfl (h .jsUndefined rfl).2
        | jsString s => exact ⟨_, rfl⟩
        | jsObject m => exact ⟨_, rfl⟩

/-- Witness for the amended claim C5 at a concrete failure carrying an Error
object. -/
theorem groq_c5_amended_witness :
    ∃ resp : Response,
      (mainHandler CONFIG "2025-01-01T00:00:00.000Z" sampleForwardRequest
        (.failure (.jsObject (some "boom")))).outcome = .ok resp :=
  groq_c5_amended CONFIG "2025-01-01T00:00:00.000Z" sampleForwardRequest
    (.failure (.jsObject (some "boom")))
    (by intro e he; injection he with h; subst h; exact ⟨by decide, by decide⟩)

/-- Claim C6: a forwarded request with method GET or HEAD carries no outbound
body even when the inbound request supplied one; any other forwarded method
passes the inbound body through unchanged. -/
theorem groq_c6 (cfg : Config) (now : String) (r : Request) (net : FetchOutcome)
    (hm : r.method ≠ "OPTIONS") (h1 : r.pathname ≠ "/") (h2 : r.pathname ≠ "/index.html") :
    ∃ c : FetchCall, (mainHandler cfg now r net).fetches = [c] ∧
      ((r.method = "GET" ∨ r.method = "HEAD") → c.body = none) ∧
      (¬(r.method = "GET" ∨ r.method = "HEAD") → c.body = r.body) := by
  unfold mainHandler handleRequest
  rw [if_neg hm, if_neg (by rintro (h | h); exact h1 h; exact h2 h)]
  by_cases hgh : r.method = "GET" ∨ r.method = "HEAD"
  · cases net with
    | success resp =>
      exact ⟨_, rfl, fun _ => by simp [hgh], fun hc => absurd hgh hc⟩
    | failure err =>
      cases err <;> exact ⟨_, rfl, fun _ => by simp [hgh], fun hc => absurd hgh hc⟩
  · cases net with
    | success resp =>
      exact ⟨_, rfl, fun hc => absurd hc hgh, fun _ => by simp [hgh]⟩
    | failure err =>
      cases err <;> exact ⟨_, rfl, fun hc => absurd hc hgh, fun _ => by simp [hgh]⟩

/-- Witness for claim C6 at a concrete GET request that supplied a body. -/
theorem groq_c6_witness :
    ∃ c : FetchCall,
      (mainHandler CONFIG "2025-01-01T00:00:00.000Z" sampleGetRequest
        (.success sampleUpstream)).fetches = [c] ∧
      ((sampleGetRequest.method = "GET" ∨ sampleGetRequest.method = "HEAD") → c.body = none) ∧
      (¬(sampleGetRequest.method = "GET" ∨ sampleGetRequest.method = "HEAD") →
        c.body = sampleGetRequest.body) :=
  groq_c6 CONFIG "2025-01-01T00:00:00.000Z" sampleGetRequest (.success sampleUpstream)
    (by decide) (by decide) (by decide)

/-- Claim C7: every request with method OPTIONS, whatever its path, headers
or body and whatever the network would do, is answered with status 204, an
empty body, exactly the four preflight headers with their literal values, no
outbound call and no console output. -/
theorem groq_c7 (cfg : Config) (now : String) (r : Request) (net : FetchOutcome)
    (hm : r.method = "OPTIONS") :
    mainHandler cfg now r net =
      { fetches := [], logs := [],
        outcome := .ok
          { status := 204, statusText := "",
            headers := [("access-control-allow-origin", "*"),
                        ("access-control-allow-methods", "GET, POST, PUT, DELETE, OPTIONS"),
                        ("access-control-allow-headers", "*"),
                        ("access-control-max-age", "86400")],
            body := none } } := by
  unfold mainHandler
  rw [if_pos hm]
  rfl

/-- Witness for claim C7 at a concrete OPTIONS request. -/
theorem groq_c7_witness :
    mainHandler CONFIG "2025-01-01T00:00:00.000Z"
      { method := "OPTIONS", pathname := "/openai/v1/chat/completions", query := "",
        rawHeaders := [("Origin", "https://app.example")], body := none }
      (.success sampleUpstream) =
      { fetches := [], logs := [],
        outcome := .ok
          { status := 204, statusText := "",
            headers := [("access-control-allow-origin", "*"),
                        ("access-control-allow-methods", "GET, POST, PUT, DELETE, OPTIONS"),
                        ("access-control-allow-headers", "*"),
                        ("access-control-max-age", "86400")],
            body := none } } :=
  groq_c7 CONFIG "2025-01-01T00:00:00.000Z"
    { method := "OPTIONS", pathname := "/openai/v1/chat/completions", query := "",
      rawHeaders := [("Origin", "https://app.example")], body := none }
    (.success sampleUpstream) (by decide)

/-- Claim C8: every non-OPTIONS request for the root path or the index page
is answered with status 200, Content-Type text/html with utf-8 charset, and
the fixed static HTML body, with no outbound call and no console output. -/
theorem groq_c8 (cfg : Config) (now : String) (r : Request) (net : FetchOutcome)
    (hm : r.method ≠ "OPTIONS") (hp : r.pathname = "/" ∨ r.pathname = "/index.html") :
    mainHandler cfg now r net = { fetches := [], logs := [], outcome := .ok landingResponse } ∧
    landingResponse.status = 200 ∧
    hGet landingResponse.headers "Content-Type" = some "text/html; charset=utf-8" ∧
    landingResponse.body = some landingHTML := by
  refine ⟨?_, rfl, by decide, rfl⟩
  unfold mainHandler handleRequest
  rw [if_neg hm, if_pos hp]

/-- Witness for claim C8 at a concrete GET of the root path. -/
theorem groq_c8_witness :
    mainHandler CONFIG "2025-01-01T00:00:00.000Z"
      { method := "GET", pathname := "/", query := "", rawHeaders := [], body := none }
      (.success sampleUpstream) =
      { fetches := [], logs := [], outcome := .ok landingResponse } ∧
    landingResponse.status = 200 ∧
    hGet landingResponse.headers "Content-Type" = some "text/html; charset=utf-8" ∧
    landingResponse.body = some landingHTML :=
  groq_c8 CONFIG "2025-01-01T00:00:00.000Z"
    { method := "GET", pathname := "/", query := "", rawHeaders := [], body := none }
    (.success sampleUpstream) (by decide) (by decide)

/-- Counterexample to claim C9 as stated: with the logging flag disabled, a
transport failure still makes the handler emit console output, because the
console.error call in the catch block is not gated by the flag. -/
theorem groq_c9_counterexample :
    (mainHandler { port := 8080, logRequests := false, groqApiEndpoint := "https://api.groq.com" }
      "2025-01-01T00:00:00.000Z" sampleForwardRequest
      (.failure (.jsObject (some "connection refused")))).logs ≠ [] := by
  decide

/-- Claim C9 as amended: the console output of the handler is exactly this —
requests answered locally (OPTIONS preflight or landing page) emit nothing;
each forwarded request emits the timestamp, method, path and target line
precisely when the logging flag is enabled; and a transport failure
additionally emits an error line naming the target URL regardless of the
flag. -/
theorem groq_c9_amended (cfg : Config) (now : String) (r : Request) (net : FetchOutcome) :
    (r.method = "OPTIONS" → (mainHandler cfg now r net).logs = []) ∧
    (r.method ≠ "OPTIONS" → (r.pathname = "/" ∨ r.pathname = "/index.html") →
      (mainHandler cfg now r net).logs = []) ∧
    (r.method ≠ "OPTIONS" → r.pathname ≠ "/" → r.pathname ≠ "/index.html" →
      (mainHandler cfg now r net).logs =
        (if cfg.logRequests then
          [LogEvent.info ("[" ++ now ++ "] " ++ r.method ++ " " ++ r.pathname ++ " -> " ++
            (cfg.groqApiEndpoint ++ r.pathname ++ searchOf r.query))]
        else []) ++
        (match net with
          | .failure e =>
            [LogEvent.errorLine ("[ERROR] Failed to fetch " ++
              (cfg.groqApiEndpoint ++ r.pathname ++ searchOf r.query) ++ ":") e]
          | .success _ => [])) := by
  refine ⟨?_, ?_, ?_⟩
  · intro hm
    unfold mainHandler
    rw [if_pos hm]
  · intro hm hp
    unfold mainHandler handleRequest
    rw [if_neg hm, if_pos hp]
  · intro hm h1 h2
    unfold mainHandler handleRequest
    rw [if_neg hm, if_neg (by rintro (h | h); exact h1 h; exact h2 h)]
    cases net with
    | success resp => simp
    | failure err => cases err <;> simp [getMessage]

/-- Witness for the amended claim C9: with logging enabled, a successful
forwarded request emits exactly the one request line. -/
theorem groq_c9_amended_witness :
    (mainHandler CONFIG "2025-01-01T00:00:00.000Z" sampleForwardRequest
      (.success sampleUpstream)).logs =
      [LogEvent.info
        "[2025-01-01T00:00:00.000Z] POST /openai/v1/chat/completions -> https://api.groq.com/openai/v1/chat/completions"] :=
  ((groq_c9_amended CONFIG "2025-01-01T00:00:00.000Z" sampleForwardRequest
    (.success sampleUpstream)).2.2 (by decide) (by decide) (by decide)).trans (by decide)

/-- Claim C10: the landing-page branch matches the pathname by exact,
case-sensitive string equality — the root path and the index page receive
the static response, and every other pathname (case variants and trailing
slashes included) is forwarded to the upstream. -/
theorem groq_c10 (cfg : Config) (now : String) (r : Request) (net : FetchOutcome)
    (hm : r.method ≠ "OPTIONS") :
    ((r.pathname = "/" ∨ r.pathname = "/index.html") →
      mainHandler cfg now r net = { fetches := [], logs := [], outcome := .ok landingResponse }) ∧
    ((r.pathname ≠ "/" ∧ r.pathname ≠ "/index.html") →
      (mainHandler cfg now r net).fetches.length = 1) := by
  constructor
  · intro hp
    unfold mainHandler handleRequest
    rw [if_neg hm, if_pos hp]
  · intro hp
    unfold mainHandler handleRequest
    rw [if_neg hm, if_neg (by rintro (h | h); exact hp.1 h; exact hp.2 h)]
    cases net with
    | success resp => rfl
    | failure err => cases err <;> rfl

/-- Witness for claim C10: the case variant of the index page is forwarded
rather than served locally. -/
theorem groq_c10_witness :
    (mainHandler CONFIG "2025-01-01T00:00:00.000Z"
      { method := "GET", pathname := "/Index.html", query := "", rawHeaders := [], body := none }
      (.success sampleUpstream)).fetches.length = 1 :=
  (groq_c10 CONFIG "2025-01-01T00:00:00.000Z"
    { method := "GET", pathname := "/Index.html", query := "", rawHeaders := [], body := none }
    (.success sampleUpstream) (by decide)).2 ⟨by decide, by decide⟩
